import Mathlib

/-!
Shallow embedding of `@otterhttp/session` (session resolution/lifecycle).

Source of truth: `src/session.ts` (the `session` factory returning
`sessionHandle`, and `decorateSession` installing `commit`/`touch`/`destroy`),
`src/types.ts` (the `Session`/`Cookie`/`SessionStore` shapes) and
`src/utils.ts` (`appendSessionCookieHeader`).

Modelling conventions:
  - time is in milliseconds as `Int`; a JS `Date` is its epoch-millisecond
    value (so `new Date(1)` is `1`);
  - `maxAge` is in seconds as `Int`, matching the source arithmetic
    `maxAge * 1000`;
  - application-data values are modelled as `String` (no claim inspects a
    value, only the set of own enumerable string keys);
  - JS promise rejection is an `Except String` error / an `Option String`
    error slot in an outcome record;
  - store interactions are recorded as an event trace, so that claims about
    which store operations were invoked are statable.
-/

/-- Result of reading a request cookie's `value` property: the otterhttp
`Cookie` getter either yields the (possibly unsigned) string, or throws
(after a failed `unsign`). -/
inductive CookieAccess where
  | readable (v : String)
  | failed
deriving DecidableEq, Repr

/-- An incoming request cookie, as seen by `sessionHandle`: its `signed`
marker and the behaviour of its `value` getter. -/
structure ReqCookie where
  signed : Bool
  value : CookieAccess
deriving DecidableEq, Repr

/-- Cookie attributes carried on a session, after normalization
(`expires` as an epoch-millisecond timestamp).  `maxAge` and `expires` are
modelled as independent optional fields: the JS runtime does not enforce the
`Cookie` type union from `src/types.ts`, and `destroy` writes `expires`
unconditionally. -/
structure Cookie where
  path : String
  httpOnly : Bool
  domain : Option String
  sameSite : Option String
  secure : Bool
  maxAge : Option Int
  expires : Option Int
deriving DecidableEq, Repr

/-- A stored `cookie.expires` value as returned by a store: some stores
round-trip through text and return the timestamp as a string
(`src/session.ts` normalizes it with `new Date(expires)`). -/
inductive StoredExpires where
  | asString (t : Int)
  | asDate (t : Int)
deriving DecidableEq, Repr

/-- Cookie attributes as returned by `Store.get`, before normalization. -/
structure StoredCookie where
  path : String
  httpOnly : Bool
  domain : Option String
  sameSite : Option String
  secure : Bool
  maxAge : Option Int
  expires : Option StoredExpires
deriving DecidableEq, Repr

/-- Application payload: the own enumerable string-keyed fields of a session
record beyond the mandatory `cookie` field. -/
abbrev AppData := List (String × String)

/-- The record shape returned by `Store.get` (`SessionData` in
`src/types.ts`): the `cookie` sub-object plus application payload.  It
carries no lifecycle flags and no operations. -/
structure StoredData where
  cookie : StoredCookie
  data : AppData
deriving DecidableEq, Repr

/-- The `SessionData` view of a live session that a store operation
receives: its own enumerable string-keyed fields, i.e. `cookie` plus the
application payload.  The operation fields `id`/`touch`/`commit`/`destroy`
are installed non-enumerable by `decorateSession`, and the three lifecycle
flags are symbol-keyed, so none of them belongs to this view. -/
structure PersistData where
  cookie : Cookie
  data : AppData
deriving DecidableEq, Repr

/-- Request-scoped session state: the record fields plus the immutable `id`
and the three symbol-keyed lifecycle flags (`isNew`, `isTouched`,
`isDestroyed` from `src/symbol.ts`; an absent flag reads as `false`). -/
structure SessionState where
  id : String
  cookie : Cookie
  data : AppData
  isNew : Bool
  isTouched : Bool
  isDestroyed : Bool
deriving DecidableEq, Repr

/-- `Object.keys(session)`: the own enumerable string keys — the mandatory
`cookie` key plus one key per application-data field. -/
def objectKeys (s : SessionState) : List String :=
  "cookie" :: s.data.map Prod.fst

/-- The `SessionData` view of a live session that is passed to
`store.set`/`store.touch` (see `PersistData`). -/
def persistView (s : SessionState) : PersistData :=
  ⟨s.cookie, s.data⟩

/-- One invoked store operation, recorded with its arguments. -/
inductive StoreEvent where
  | getEv (sid : String)
  | setEv (sid : String) (rec : PersistData)
  | destroyEv (sid : String)
  | touchEv (sid : String) (rec : PersistData)
deriving DecidableEq, Repr

/-- The pluggable `SessionStore` interface of `src/types.ts`: `get`, `set`,
`destroy` and the optional capability `touch`.  Rejection of the returned
promise is an `Except.error`. -/
structure SessionStore where
  get : String → Except String (Option StoredData)
  set : String → PersistData → Except String Unit
  destroyRecord : String → Except String Unit
  touch : Option (String → PersistData → Except String Unit)

/-- The resolver configuration (`Options` plus the destructured
`cookie` options of `src/session.ts`).  `genid` and `now` are passed to
`sessionHandle` explicitly; `unsign` returns `none` on an invalid
signature. -/
structure Config where
  name : String
  touchAfter : Int
  unsign : Option (String → Option String)
  cookiePath : Option String
  cookieHttpOnly : Option Bool
  cookieDomain : Option String
  cookieSameSite : Option String
  cookieSecure : Option Bool
  cookieMaxAge : Option Int

/-- The request object, as far as `sessionHandle` uses it: the parsed
cookies by name and the memoized `req.session` slot. -/
structure Req where
  session : Option SessionState
  cookies : List (String × ReqCookie)
deriving DecidableEq, Repr

/-- The response object, as far as cookie emission uses it: whether headers
were already sent, and the ordered response headers. -/
structure Res where
  headersSent : Bool
  headers : List (String × String)
deriving DecidableEq, Repr

/-- Outcome of a decorated `commit`/`touch` call on a session: the session
state after the call returned or rejected, the store operations it invoked,
and the rejection reason if it rejected. -/
structure OpOutcome where
  session : SessionState
  events : List StoreEvent
  error : Option String
deriving DecidableEq, Repr

/-- Outcome of a decorated `destroy` call: additionally carries the request,
since `destroy` writes `req.session = undefined`. -/
structure DestroyOutcome where
  session : SessionState
  req : Req
  events : List StoreEvent
  error : Option String
deriving DecidableEq, Repr

/-- Successful outcome of `sessionHandle`: the resolved session, the request
after attachment, and the store operations invoked during resolution. -/
structure ResolveOk where
  session : SessionState
  req : Req
  events : List StoreEvent
deriving DecidableEq, Repr

/-- otterhttp `Cookie.unsign(fn)` (external collaborator, behaviour per the
spec's Cookie Codec interface): on success the cookie becomes signed with
the unsigned value readable; on an invalid signature a later `value` read
throws. -/
def applyUnsign (f : String → Option String) (c : ReqCookie) : ReqCookie :=
  match c.value with
  | .readable raw =>
    match f raw with
    | some v => ⟨true, .readable v⟩
    | none => ⟨c.signed, .failed⟩
  | .failed => c

/-- Candidate session identifier extraction of `src/session.ts` lines 55-61:
look up the named cookie, conditionally unsign it, then read `value` inside
`try`/`catch` (a throwing read yields `null`). -/
def candidateSessionId (cfg : Config) (req : Req) : Option String :=
  let sessionCookie := (req.cookies.lookup cfg.name)
  let sessionCookie :=
    match cfg.unsign, sessionCookie with
    | some f, some c => if c.signed then some c else some (applyUnsign f c)
    | _, c? => c?
  match sessionCookie with
  | some c =>
    match c.value with
    | .readable v => some v
    | .failed => none
  | none => none

/-- `sessionId ? await store.get(sessionId) : null`: the empty string is
falsy in JS, so it never reaches the store. -/
def fetchRecord (store : SessionStore) (sid? : Option String) :
    Except String (Option StoredData) :=
  match sid? with
  | some v => if v = "" then .ok none else store.get v
  | none => .ok none

/-- The `Store.get` events generated by `fetchRecord`. -/
def getEvents (sid? : Option String) : List StoreEvent :=
  match sid? with
  | some v => if v = "" then [] else [.getEv v]
  | none => []

/-- Normalization of a stored cookie (`src/session.ts` lines 67-71): a
string-typed `expires` is converted to a `Date`. -/
def normalizeCookie (c : StoredCookie) : Cookie where
  path := c.path
  httpOnly := c.httpOnly
  domain := c.domain
  sameSite := c.sameSite
  secure := c.secure
  maxAge := c.maxAge
  expires :=
    match c.expires with
    | some (.asString t) => some t
    | some (.asDate t) => some t
    | none => none

/-- A session rehydrated from a store record: record fields plus the `id`;
all lifecycle flags absent (read as `false`). -/
def rehydratedSession (sid : String) (rec : StoredData) : SessionState where
  id := sid
  cookie := normalizeCookie rec.cookie
  data := rec.data
  isNew := false
  isTouched := false
  isDestroyed := false

/-- A freshly created session (`src/session.ts` lines 84-98): default cookie
attributes from the config (`||` and `??` defaulting as in the source,
including `if (cookieOpts.maxAge)` being falsy at `0`), `isNew` set. -/
def freshSession (cfg : Config) (now : Int) (genned : String) : SessionState :=
  let base : Cookie :=
    { path := match cfg.cookiePath with
              | some p => if p = "" then "/" else p
              | none => "/"
      httpOnly := cfg.cookieHttpOnly.getD true
      domain := match cfg.cookieDomain with
                | some d => if d = "" then none else some d
                | none => none
      sameSite := cfg.cookieSameSite
      secure := cfg.cookieSecure.getD false
      maxAge := none
      expires := none }
  let cookie :=
    match cfg.cookieMaxAge with
    | some m =>
      if m ≠ 0 then { base with maxAge := some m, expires := some (now + m * 1000) }
      else base
    | none => base
  { id := genned
    cookie := cookie
    data := []
    isNew := true
    isTouched := false
    isDestroyed := false }

/-- Decorated `commit` (`src/session.ts` lines 24-28):
`await store.set(this.id, this)` and nothing else. -/
def Session.commit (store : SessionStore) (s : SessionState) : OpOutcome :=
  match store.set s.id (persistView s) with
  | .ok _ => ⟨s, [.setEv s.id (persistView s)], none⟩
  | .error e => ⟨s, [.setEv s.id (persistView s)], some e⟩

/-- The expiry recomputation at the head of the decorated `touch`
(`src/session.ts` lines 31-33): if `cookie.maxAge` is set, recompute
`cookie.expires` from the resolution-time `_now`. -/
def touchedState (now : Int) (s : SessionState) : SessionState :=
  match s.cookie.maxAge with
  | some m => { s with cookie := { s.cookie with expires := some (now + m * 1000) } }
  | none => s

/-- Decorated `touch` (`src/session.ts` lines 29-37): recompute the expiry,
then `await store.touch?.(this.id, this)` (skipped if the store lacks
`touch`); only after that resolves is `isTouched` set. -/
def Session.touch (store : SessionStore) (now : Int) (s : SessionState) : OpOutcome :=
  let s1 := touchedState now s
  match store.touch with
  | none => ⟨{ s1 with isTouched := true }, [], none⟩
  | some f =>
    match f s1.id (persistView s1) with
    | .ok _ => ⟨{ s1 with isTouched := true }, [.touchEv s1.id (persistView s1)], none⟩
    | .error e => ⟨s1, [.touchEv s1.id (persistView s1)], some e⟩

/-- Decorated `destroy` (`src/session.ts` lines 38-45): set `isDestroyed`,
force `cookie.expires = new Date(1)`, `await store.destroy(this.id)`, then
detach the session from the request. -/
def Session.destroy (store : SessionStore) (req : Req) (s : SessionState) :
    DestroyOutcome :=
  let s1 := { s with isDestroyed := true,
                     cookie := { s.cookie with expires := some 1 } }
  match store.destroyRecord s1.id with
  | .ok _ => ⟨s1, { req with session := none }, [.destroyEv s1.id], none⟩
  | .error e => ⟨s1, req, [.destroyEv s1.id], some e⟩

/-- The auto-touch guard of `src/session.ts` lines 77-79:
`touchAfter >= 0 && session.cookie.expires` and then
`_now - (expires - maxAge*1000) >= touchAfter * 1000`.  When `maxAge` is
absent the source computes with `NaN` and the comparison is false. -/
def autoTouchCond (cfg : Config) (now : Int) (s : SessionState) : Bool :=
  decide (0 ≤ cfg.touchAfter) &&
    match s.cookie.expires with
    | some t =>
      match s.cookie.maxAge with
      | some m => decide (now - (t - m * 1000) ≥ cfg.touchAfter * 1000)
      | none => false
    | none => false

/-- The resolver `sessionHandle` of `src/session.ts` lines 50-112, with the
resolution-time `Date.now()` snapshot and the value produced by `genId`
passed explicitly.  Promise rejection is `Except.error`; on success the
session is attached to the request (`req.session = session`, line 104). -/
def sessionHandle (cfg : Config) (store : SessionStore) (req : Req)
    (now : Int) (genned : String) : Except String ResolveOk :=
  match req.session with
  | some s => .ok ⟨s, req, []⟩
  | none =>
    let sid? := candidateSessionId cfg req
    match fetchRecord store sid? with
    | .error e => .error e
    | .ok (some rec) =>
      let s0 := rehydratedSession (sid?.getD "") rec
      if autoTouchCond cfg now s0 then
        let o := Session.touch store now s0
        match o.error with
        | some e => .error e
        | none => .ok ⟨o.session, { req with session := some o.session },
                       getEvents sid? ++ o.events⟩
      else
        .ok ⟨s0, { req with session := some s0 }, getEvents sid?⟩
    | .ok none =>
      let s := freshSession cfg now genned
      .ok ⟨s, { req with session := some s }, getEvents sid?⟩

/-- Serialization of the outgoing `Set-Cookie` value (external Cookie Codec;
`res.cookie(name, id, attributes)` in `src/utils.ts`). -/
def serializeSetCookie (name : String) (sid : String) (c : Cookie) : String :=
  name ++ "=" ++ sid
    ++ "; Path=" ++ c.path
    ++ (match c.expires with
        | some t => "; Expires=" ++ toString t
        | none => "")
    ++ (match c.domain with
        | some d => "; Domain=" ++ d
        | none => "")
    ++ (if c.httpOnly then "; HttpOnly" else "")
    ++ (if c.secure then "; Secure" else "")

/-- `appendSessionCookieHeader` of `src/utils.ts`: a no-op once headers were
sent, otherwise appends one `set-cookie` header serialized from the
session's `id` and cookie attributes. -/
def appendSessionCookieHeader (res : Res) (name : String) (s : SessionState) : Res :=
  if res.headersSent then res
  else { res with headers :=
          res.headers ++ [("set-cookie", serializeSetCookie name s.id s.cookie)] }

/-- The late header action registered by `sessionHandle` (lines 106-109):
at header-flush time, return without touching the response unless
`(isNew && Object.keys(session).length > 1) || isTouched || isDestroyed`;
otherwise call `appendSessionCookieHeader`.  It takes the session state as
of flush time. -/
def lateSessionHook (cfg : Config) (s : SessionState) (res : Res) : Res :=
  if !(s.isNew && decide (1 < (objectKeys s).length)) && !s.isTouched && !s.isDestroyed
  then res
  else appendSessionCookieHeader res cfg.name s

/-- The cookie-attribute invariant stated by the spec: `expires` is set iff
`maxAge` is set. -/
def cookieInvariant (c : Cookie) : Prop :=
  c.expires.isSome ↔ c.maxAge.isSome

instance (c : Cookie) : Decidable (cookieInvariant c) := by
  unfold cookieInvariant; infer_instance

/-! ### Helper evaluation lemmas -/

/-- `touchedState` under a known `maxAge`. -/
theorem touchedState_of_maxAge (now : Int) (s : SessionState) (m : Int)
    (hma : s.cookie.maxAge = some m) :
    touchedState now s =
      { s with cookie := { s.cookie with expires := some (now + m * 1000) } } := by
  unfold touchedState
  rw [hma]

/-- A `touch` call that did not reject has set the `isTouched` flag on the
expiry-updated state. -/
theorem touch_ok_result (store : SessionStore) (now : Int) (s : SessionState)
    (herr : (Session.touch store now s).error = none) :
    (Session.touch store now s).session = { touchedState now s with isTouched := true } := by
  unfold Session.touch at herr ⊢
  cases hst : store.touch with
  | none => rfl
  | some f =>
    dsimp only
    rw [hst] at herr
    dsimp only at herr
    cases hf : f (touchedState now s).id (persistView (touchedState now s)) with
    | ok u => rfl
    | error e =>
      rw [hf] at herr
      simp at herr

/-- A `touch` call against a store lacking the `touch` capability never
rejects and invokes no store operation. -/
theorem touch_no_capability (store : SessionStore) (now : Int) (s : SessionState)
    (hst : store.touch = none) :
    Session.touch store now s = ⟨{ touchedState now s with isTouched := true }, [], none⟩ := by
  unfold Session.touch
  rw [hst]

/-- Evaluation of `sessionHandle` on a fresh request when the candidate
lookup misses (no candidate, empty candidate, or a store miss). -/
theorem sessionHandle_miss_eval (cfg : Config) (store : SessionStore) (req : Req)
    (now : Int) (genned : String)
    (hreq : req.session = none)
    (hfetch : fetchRecord store (candidateSessionId cfg req) = .ok none) :
    sessionHandle cfg store req now genned =
      .ok ⟨freshSession cfg now genned,
           { req with session := some (freshSession cfg now genned) },
           getEvents (candidateSessionId cfg req)⟩ := by
  unfold sessionHandle
  rw [hreq]
  dsimp only
  rw [hfetch]

/-- Evaluation of `sessionHandle` on a fresh request when the store returns
a record for the candidate identifier. -/
theorem sessionHandle_hit_eval (cfg : Config) (store : SessionStore) (req : Req)
    (now : Int) (genned : String) (v : String) (rec : StoredData) (o : OpOutcome)
    (hreq : req.session = none)
    (hcand : candidateSessionId cfg req = some v)
    (hv : v ≠ "")
    (hget : store.get v = .ok (some rec))
    (ho : Session.touch store now (rehydratedSession v rec) = o) :
    sessionHandle cfg store req now genned =
      (if autoTouchCond cfg now (rehydratedSession v rec) then
         match o.error with
         | some e => .error e
         | none =>
           .ok ⟨o.session, { req with session := some o.session }, [.getEv v] ++ o.events⟩
       else
         .ok ⟨rehydratedSession v rec,
              { req with session := some (rehydratedSession v rec) }, [.getEv v]⟩) := by
  unfold sessionHandle
  rw [hreq]
  dsimp only
  rw [hcand]
  unfold fetchRecord getEvents
  dsimp only
  simp only [if_neg hv]
  rw [hget]
  dsimp only
  simp only [Option.getD_some]
  rw [ho]

/-! ### Concrete exemplar inputs (shared by witnesses and counterexamples) -/

/-- Default configuration: name `sid`, `touchAfter` disabled. -/
def exCfg : Config := ⟨"sid", -1, none, none, none, none, none, none, none⟩

/-- Configuration with `touchAfter = 0`. -/
def exCfgTouch : Config := ⟨"sid", 0, none, none, none, none, none, none, none⟩

/-- Configuration with an `unsign` function rejecting every value. -/
def exCfgUnsign : Config :=
  ⟨"sid", -1, some (fun _ => none), none, none, none, none, none, none⟩

/-- A store whose every operation succeeds and that holds no records. -/
def emptyStore : SessionStore :=
  ⟨fun _ => .ok none, fun _ _ => .ok (), fun _ => .ok (), none⟩

/-- A store whose `get` rejects. -/
def failGetStore : SessionStore :=
  ⟨fun _ => .error "boom", fun _ _ => .ok (), fun _ => .ok (), none⟩

/-- A stored record for identifier `abc`: `maxAge` 60 s, `expires` at
50000 ms, one application field. -/
def exRecord : StoredData :=
  ⟨⟨"/", true, none, none, false, some 60, some (.asDate 50000)⟩, [("foo", "bar")]⟩

/-- A store holding `exRecord` under `abc`, without the `touch`
capability. -/
def exStoreR : SessionStore :=
  ⟨fun sid => if sid = "abc" then .ok (some exRecord) else .ok none,
   fun _ _ => .ok (), fun _ => .ok (), none⟩

/-- A store holding `exRecord` under `abc` whose `touch` capability
rejects. -/
def failTouchStore : SessionStore :=
  ⟨fun sid => if sid = "abc" then .ok (some exRecord) else .ok none,
   fun _ _ => .ok (), fun _ => .ok (), some (fun _ _ => .error "boom")⟩

/-- A request with no resolved session and no cookies. -/
def emptyReq : Req := ⟨none, []⟩

/-- A request carrying the session cookie `sid=abc` (unsigned). -/
def exReqR : Req := ⟨none, [("sid", ⟨false, .readable "abc"⟩)]⟩

/-- A rehydrated-shape session without `maxAge`/`expires`. -/
def noMaxSession : SessionState :=
  ⟨"abc", ⟨"/", true, none, none, false, none, none⟩, [], false, false, false⟩

/-- A session with `maxAge` 60 s and `expires` at 50000 ms. -/
def maxAgeSession : SessionState :=
  ⟨"abc", ⟨"/", true, none, none, false, some 60, some 50000⟩, [("foo", "bar")],
   false, false, false⟩

/-- A touched session (flush-time state for hook exemplars). -/
def touchedSession : SessionState :=
  ⟨"abc", ⟨"/", true, none, none, false, none, none⟩, [], false, true, false⟩

/-- A response whose headers are not yet sent. -/
def exRes : Res := ⟨false, [("content-type", "text/plain")]⟩

/-- A response whose headers were already sent. -/
def exResSent : Res := ⟨true, [("content-type", "text/plain")]⟩

/-! ### Claims -/

/-- Claim C2: a request that already carries a resolved session is answered
with that identical session, the request unchanged, and no store operation
invoked — the store is hit at most once per request however many times
resolution is called. -/
theorem resolve_memoized (cfg : Config) (store : SessionStore) (req : Req)
    (now : Int) (genned : String) (s : SessionState)
    (h : req.session = some s) :
    sessionHandle cfg store req now genned = .ok ⟨s, req, []⟩ := by
  unfold sessionHandle
  rw [h]

/-- Witness for C2 at a concrete request already carrying a session, against
a store whose `get` would reject if consulted. -/
theorem resolve_memoized_witness :
    sessionHandle exCfg failGetStore ⟨some touchedSession, []⟩ 0 "g" =
      .ok ⟨touchedSession, ⟨some touchedSession, []⟩, []⟩ :=
  resolve_memoized exCfg failGetStore ⟨some touchedSession, []⟩ 0 "g" touchedSession rfl

/-- Claim C9: once response headers have been sent, the cookie-emission path
changes nothing on the response and raises no error — both the low-level
`appendSessionCookieHeader` and the registered late hook are no-ops. -/
theorem append_after_headersSent_noop (res : Res) (name : String)
    (cfg : Config) (s : SessionState)
    (h : res.headersSent = true) :
    appendSessionCookieHeader res name s = res ∧ lateSessionHook cfg s res = res := by
  constructor
  · unfold appendSessionCookieHeader
    rw [h]
    simp
  · unfold lateSessionHook appendSessionCookieHeader
    rw [h]
    split <;> simp

/-- Witness for C9 at a concrete sent response and touched session. -/
theorem append_after_headersSent_noop_witness :
    appendSessionCookieHeader exResSent "sid" touchedSession = exResSent ∧
    lateSessionHook exCfg touchedSession exResSent = exResSent :=
  append_after_headersSent_noop exResSent "sid" exCfg touchedSession rfl

/-- Claim C5: `commit` calls `Store.set` with the session's `id` and the
session data excluding the operation fields and the lifecycle flags (the
`PersistData` view carries only `cookie` and the application payload); it
leaves the session state — flags included — unchanged, and a repeated call
re-persists the then-current state. -/
theorem commit_persists_current_state (store : SessionStore) (s : SessionState) :
    (Session.commit store s).session = s ∧
    (Session.commit store s).events = [.setEv s.id ⟨s.cookie, s.data⟩] ∧
    Session.commit store ((Session.commit store s).session) = Session.commit store s := by
  unfold Session.commit persistView
  cases hset : store.set s.id ⟨s.cookie, s.data⟩ <;> simp [hset]

/-- Claim C10: when `maxAge` is set and the store's `touch` capability
rejects, `touch` rejects with the in-memory expiry already recomputed to
`now + maxAge * 1000` and the `isTouched` flag still unset. -/
theorem touch_nonatomic_on_store_failure (store : SessionStore) (now : Int)
    (s : SessionState) (m : Int) (f : String → PersistData → Except String Unit)
    (e : String)
    (hma : s.cookie.maxAge = some m)
    (hstf : store.touch = some f)
    (hfail : f s.id ⟨{ s.cookie with expires := some (now + m * 1000) }, s.data⟩ = .error e)
    (hnt : s.isTouched = false) :
    (Session.touch store now s).error = some e ∧
    (Session.touch store now s).session.cookie.expires = some (now + m * 1000) ∧
    (Session.touch store now s).session.isTouched = false := by
  have hts := touchedState_of_maxAge now s m hma
  unfold Session.touch
  rw [hstf]
  dsimp only
  rw [hts]
  unfold persistView
  dsimp only
  rw [hfail]
  exact ⟨rfl, rfl, hnt⟩

/-- Witness for C10 at a concrete session and rejecting store. -/
theorem touch_nonatomic_on_store_failure_witness :
    (Session.touch failTouchStore 0 maxAgeSession).error = some "boom" ∧
    (Session.touch failTouchStore 0 maxAgeSession).session.cookie.expires =
      some (0 + 60 * 1000) ∧
    (Session.touch failTouchStore 0 maxAgeSession).session.isTouched = false :=
  touch_nonatomic_on_store_failure failTouchStore 0 maxAgeSession 60
    (fun _ _ => .error "boom") "boom" rfl rfl rfl rfl

/-- Claim C1: at header-flush time (headers not yet sent), the registered
late hook appends a `Set-Cookie` header if and only if the flush-time
session state is destroyed, touched, or new with at least one
application-data field beyond the mandatory `cookie` field; when none of
these hold it leaves the response unchanged. -/
theorem lateHook_appends_iff (cfg : Config) (s : SessionState) (res : Res)
    (h : res.headersSent = false) :
    ((lateSessionHook cfg s res).headers =
        res.headers ++ [("set-cookie", serializeSetCookie cfg.name s.id s.cookie)]
      ↔ (s.isDestroyed = true ∨ s.isTouched = true ∨
          (s.isNew = true ∧ s.data ≠ []))) ∧
    (¬(s.isDestroyed = true ∨ s.isTouched = true ∨ (s.isNew = true ∧ s.data ≠ []))
      → lateSessionHook cfg s res = res) := by
  unfold lateSessionHook appendSessionCookieHeader objectKeys
  rw [h]
  cases hd : s.isDestroyed <;> cases ht : s.isTouched <;> cases hn : s.isNew <;>
    cases hdata : s.data <;> simp

/-- Witness for C1 at a concrete unsent response and touched session. -/
theorem lateHook_appends_iff_witness :
    ((lateSessionHook exCfg touchedSession exRes).headers =
        exRes.headers ++
          [("set-cookie",
            serializeSetCookie exCfg.name touchedSession.id touchedSession.cookie)]
      ↔ (touchedSession.isDestroyed = true ∨ touchedSession.isTouched = true ∨
          (touchedSession.isNew = true ∧ touchedSession.data ≠ []))) ∧
    (¬(touchedSession.isDestroyed = true ∨ touchedSession.isTouched = true ∨
        (touchedSession.isNew = true ∧ touchedSession.data ≠ []))
      → lateSessionHook exCfg touchedSession exRes = exRes) :=
  lateHook_appends_iff exCfg touchedSession exRes rfl

/-- Claim C4, counterexample: `destroy` does not preserve the
`expires`-iff-`maxAge` invariant.  On a session whose cookie has neither
`maxAge` nor `expires` (the invariant holds), `destroy` forces
`expires = new Date(1)` while leaving `maxAge` unset, so the invariant
fails afterwards. -/
theorem destroy_breaks_cookieInvariant :
    cookieInvariant noMaxSession.cookie ∧
    ¬ cookieInvariant (Session.destroy emptyStore emptyReq noMaxSession).session.cookie := by
  constructor <;> decide

/-- Claim C4 as amended: session creation at resolve, `touch` and `commit`
preserve the `expires`-iff-`maxAge` invariant unconditionally, and `destroy`
preserves it exactly on sessions whose `maxAge` is set (on a session without
`maxAge` it forces `expires` and breaks the invariant). -/
theorem cookieInvariant_preservation_amended :
    (∀ (cfg : Config) (now : Int) (genned : String),
      cookieInvariant (freshSession cfg now genned).cookie) ∧
    (∀ (store : SessionStore) (now : Int) (s : SessionState),
      cookieInvariant s.cookie →
      cookieInvariant (Session.touch store now s).session.cookie) ∧
    (∀ (store : SessionStore) (s : SessionState),
      cookieInvariant s.cookie →
      cookieInvariant (Session.commit store s).session.cookie) ∧
    (∀ (store : SessionStore) (req : Req) (s : SessionState),
      s.cookie.maxAge.isSome →
      cookieInvariant (Session.destroy store req s).session.cookie) := by
  refine ⟨?_, ?_, ?_, ?_⟩
  · intro cfg now genned
    unfold freshSession cookieInvariant
    cases hma : cfg.cookieMaxAge with
    | none => simp
    | some m =>
      dsimp only
      by_cases hz : m = 0 <;> simp [hz]
  · intro store now s hinv
    have hsess : (Session.touch store now s).session.cookie = (touchedState now s).cookie ∨
        (Session.touch store now s).session.cookie.expires = (touchedState now s).cookie.expires ∧
        (Session.touch store now s).session.cookie.maxAge = (touchedState now s).cookie.maxAge := by
      unfold Session.touch
      cases hst : store.touch with
      | none => exact .inl rfl
      | some f =>
        dsimp only
        cases hf : f (touchedState now s).id (persistView (touchedState now s)) with
        | ok u => exact .inl rfl
        | error e => exact .inl rfl
    have htouched : cookieInvariant (touchedState now s).cookie := by
      unfold touchedState cookieInvariant
      cases hma : s.cookie.maxAge with
      | none => exact hinv
      | some m => simp [hma]
    rcases hsess with hc | ⟨he, hm⟩
    · rw [hc]; exact htouched
    · unfold cookieInvariant
      rw [he, hm]
      exact htouched
  · intro store s hinv
    have : (Session.commit store s).session = s := by
      unfold Session.commit
      cases hset : store.set s.id (persistView s) <;> simp [hset]
    rw [this]
    exact hinv
  · intro store req s hma
    have : (Session.destroy store req s).session.cookie =
        { s.cookie with expires := some 1 } := by
      unfold Session.destroy
      cases hd : store.destroyRecord s.id <;> simp [hd]
    rw [this]
    unfold cookieInvariant
    simpa using hma

/-- Witness for C4 as amended: `destroy` on a session with `maxAge` set, and
`touch` on a session without, both leave the invariant intact. -/
theorem cookieInvariant_preservation_amended_witness :
    cookieInvariant (Session.destroy emptyStore emptyReq maxAgeSession).session.cookie ∧
    cookieInvariant (Session.touch emptyStore 0 noMaxSession).session.cookie :=
  ⟨cookieInvariant_preservation_amended.2.2.2 emptyStore emptyReq maxAgeSession (by decide),
   cookieInvariant_preservation_amended.2.1 emptyStore 0 noMaxSession (by decide)⟩

/-- `candidateSessionId` depends only on the request's cookies. -/
theorem candidateSessionId_cookies (cfg : Config) (r1 r2 : Req)
    (h : r1.cookies = r2.cookies) :
    candidateSessionId cfg r1 = candidateSessionId cfg r2 := by
  unfold candidateSessionId
  rw [h]

/-- Claim C6: when the configured `unsign` function fails on the session
cookie, resolution never propagates the failure: the request is treated as
carrying no candidate identifier and a fresh session with `isNew` set is
returned (with no store operation invoked). -/
theorem unsign_failure_yields_fresh_session (cfg : Config) (store : SessionStore)
    (req : Req) (now : Int) (genned : String) (f : String → Option String)
    (c : ReqCookie) (raw : String)
    (hreq : req.session = none)
    (hun : cfg.unsign = some f)
    (hc : req.cookies.lookup cfg.name = some c)
    (hsig : c.signed = false)
    (hval : c.value = .readable raw)
    (hfail : f raw = none) :
    sessionHandle cfg store req now genned =
      .ok ⟨freshSession cfg now genned,
           { req with session := some (freshSession cfg now genned) }, []⟩ ∧
    (freshSession cfg now genned).isNew = true := by
  have hcand : candidateSessionId cfg req = none := by
    simp [candidateSessionId, hun, hc, hsig, applyUnsign, hval, hfail]
  have hfetch : fetchRecord store (candidateSessionId cfg req) = .ok none := by
    rw [hcand]
    rfl
  have hmiss := sessionHandle_miss_eval cfg store req now genned hreq hfetch
  rw [hcand] at hmiss
  exact ⟨hmiss, rfl⟩

/-- Witness for C6: a forged cookie under an all-rejecting `unsign` yields a
fresh new session rather than an error, even against a store whose `get`
would reject. -/
theorem unsign_failure_yields_fresh_session_witness :
    sessionHandle exCfgUnsign failGetStore exReqR 0 "gid" =
      .ok ⟨freshSession exCfgUnsign 0 "gid",
           { exReqR with session := some (freshSession exCfgUnsign 0 "gid") }, []⟩ ∧
    (freshSession exCfgUnsign 0 "gid").isNew = true :=
  unsign_failure_yields_fresh_session exCfgUnsign failGetStore exReqR 0 "gid"
    (fun _ => none) ⟨false, .readable "abc"⟩ "abc" rfl rfl rfl rfl rfl rfl

/-- Claim C8: `destroy` sets the `isDestroyed` flag, forces `cookie.expires`
to the already-elapsed timestamp `1` (epoch plus one millisecond), invokes
exactly `Store.destroy` with the session's id (so neither `Store.set` nor
`Store.touch`), and — when the store call succeeds — detaches the session
from the request, so that a later resolution on that request (whose store
lookup now misses) creates a fresh new session instead of returning the
destroyed one. -/
theorem destroy_effects (cfg : Config) (store : SessionStore) (req : Req)
    (s : SessionState) (v : String) (now2 : Int) (gen2 : String)
    (hok : store.destroyRecord s.id = .ok ())
    (hcand : candidateSessionId cfg req = some v)
    (hv : v ≠ "")
    (hmiss : store.get v = .ok none) :
    (Session.destroy store req s).session.isDestroyed = true ∧
    (Session.destroy store req s).session.cookie.expires = some 1 ∧
    (Session.destroy store req s).events = [.destroyEv s.id] ∧
    (Session.destroy store req s).error = none ∧
    (Session.destroy store req s).req.session = none ∧
    sessionHandle cfg store (Session.destroy store req s).req now2 gen2 =
      .ok ⟨freshSession cfg now2 gen2,
           { (Session.destroy store req s).req with
               session := some (freshSession cfg now2 gen2) },
           [.getEv v]⟩ ∧
    (freshSession cfg now2 gen2).isNew = true := by
  have hd : Session.destroy store req s =
      ⟨{ s with isDestroyed := true, cookie := { s.cookie with expires := some 1 } },
       { req with session := none }, [.destroyEv s.id], none⟩ := by
    unfold Session.destroy
    dsimp only
    rw [hok]
  rw [hd]
  refine ⟨rfl, rfl, rfl, rfl, rfl, ?_, rfl⟩
  have hcand2 : candidateSessionId cfg ({ req with session := none } : Req) = some v := by
    rw [candidateSessionId_cookies cfg { req with session := none } req rfl]
    exact hcand
  have hfetch : fetchRecord store
      (candidateSessionId cfg ({ req with session := none } : Req)) = .ok none := by
    rw [hcand2]
    unfold fetchRecord
    dsimp only
    rw [if_neg hv, hmiss]
  have heval := sessionHandle_miss_eval cfg store { req with session := none }
    now2 gen2 rfl hfetch
  rw [heval, hcand2]
  unfold getEvents
  dsimp only
  rw [if_neg hv]

/-- Witness for C8: destroying `maxAgeSession` against a store that then
misses on `abc` detaches the session, and re-resolving yields a fresh new
session. -/
theorem destroy_effects_witness :
    (Session.destroy emptyStore exReqR maxAgeSession).session.isDestroyed = true ∧
    (Session.destroy emptyStore exReqR maxAgeSession).session.cookie.expires = some 1 ∧
    (Session.destroy emptyStore exReqR maxAgeSession).events =
      [.destroyEv maxAgeSession.id] ∧
    (Session.destroy emptyStore exReqR maxAgeSession).error = none ∧
    (Session.destroy emptyStore exReqR maxAgeSession).req.session = none ∧
    sessionHandle exCfg emptyStore (Session.destroy emptyStore exReqR maxAgeSession).req
        7 "fresh-id" =
      .ok ⟨freshSession exCfg 7 "fresh-id",
           { (Session.destroy emptyStore exReqR maxAgeSession).req with
               session := some (freshSession exCfg 7 "fresh-id") },
           [.getEv "abc"]⟩ ∧
    (freshSession exCfg 7 "fresh-id").isNew = true :=
  destroy_effects exCfg emptyStore exReqR maxAgeSession "abc" 7 "fresh-id"
    rfl rfl (by decide) rfl

/-- Evaluation of the auto-touch guard when both `expires` and `maxAge` are
present and `touchAfter` is non-negative. -/
theorem autoTouchCond_eval (cfg : Config) (now : Int) (s : SessionState) (t m : Int)
    (ht : s.cookie.expires = some t)
    (hm : s.cookie.maxAge = some m)
    (hT : 0 ≤ cfg.touchAfter) :
    autoTouchCond cfg now s =
      decide (now - (t - m * 1000) ≥ cfg.touchAfter * 1000) := by
  unfold autoTouchCond
  rw [ht]
  dsimp only
  rw [hm]
  dsimp only
  rw [decide_eq_true hT, Bool.true_and]

/-- A `touch` call whose store-side `touch` rejects surfaces that
rejection. -/
theorem touch_error_eval (store : SessionStore) (now : Int) (s : SessionState)
    (f : String → PersistData → Except String Unit) (e : String)
    (hstf : store.touch = some f)
    (hfail : f (touchedState now s).id (persistView (touchedState now s)) = .error e) :
    (Session.touch store now s).error = some e := by
  unfold Session.touch
  rw [hstf]
  dsimp only
  rw [hfail]

/-- Claim C3: for a rehydrated session resolved with `touchAfter = T ≥ 0`,
`cookie.expires = t` and `cookie.maxAge = m` set, resolution auto-invokes
`touch` if and only if `now - (t - m*1000) ≥ T*1000`; the resolved expiry is
`now + m*1000` when it fires and stays `t` otherwise, so the expiry strictly
increases only when the auto-touch fires. -/
theorem autoTouch_fires_iff (cfg : Config) (store : SessionStore) (req : Req)
    (now : Int) (genned : String) (v : String) (rec : StoredData) (t m : Int)
    (out : ResolveOk)
    (hreq : req.session = none)
    (hcand : candidateSessionId cfg req = some v)
    (hv : v ≠ "")
    (hget : store.get v = .ok (some rec))
    (ht : (normalizeCookie rec.cookie).expires = some t)
    (hm : (normalizeCookie rec.cookie).maxAge = some m)
    (hT : 0 ≤ cfg.touchAfter)
    (hok : sessionHandle cfg store req now genned = .ok out) :
    (out.session.isTouched = true ↔
      now - (t - m * 1000) ≥ cfg.touchAfter * 1000) ∧
    out.session.cookie.expires =
      (if now - (t - m * 1000) ≥ cfg.touchAfter * 1000 then some (now + m * 1000)
       else some t) ∧
    (∀ t2 : Int, out.session.cookie.expires = some t2 → t < t2 →
      now - (t - m * 1000) ≥ cfg.touchAfter * 1000) := by
  have he : (rehydratedSession v rec).cookie.expires = some t := ht
  have hma : (rehydratedSession v rec).cookie.maxAge = some m := hm
  have hcond := autoTouchCond_eval cfg now (rehydratedSession v rec) t m he hma hT
  have heval := sessionHandle_hit_eval cfg store req now genned v rec
    (Session.touch store now (rehydratedSession v rec)) hreq hcand hv hget rfl
  rw [heval, hcond] at hok
  by_cases hfire : now - (t - m * 1000) ≥ cfg.touchAfter * 1000
  · rw [if_pos (decide_eq_true hfire)] at hok
    cases ho : (Session.touch store now (rehydratedSession v rec)).error with
    | some e =>
      rw [ho] at hok
      simp at hok
    | none =>
      rw [ho] at hok
      dsimp only at hok
      injection hok with h
      have hsess : out.session =
          { touchedState now (rehydratedSession v rec) with isTouched := true } := by
        rw [← h]
        exact touch_ok_result store now (rehydratedSession v rec) ho
      have htS := touchedState_of_maxAge now (rehydratedSession v rec) m hma
      refine ⟨?_, ?_, ?_⟩
      · rw [hsess]
        exact iff_of_true rfl hfire
      · rw [hsess, htS, if_pos hfire]
      · intro t2 _ _
        exact hfire
  · rw [if_neg (by simpa using hfire)] at hok
    injection hok with h
    have hsess : out.session = rehydratedSession v rec := by rw [← h]
    refine ⟨?_, ?_, ?_⟩
    · refine iff_of_false ?_ hfire
      rw [hsess]
      simp [rehydratedSession]
    · rw [hsess, if_neg hfire]
      exact he
    · intro t2 ht2 hlt
      rw [hsess, he] at ht2
      injection ht2 with h2
      exact absurd (h2 ▸ hlt) (lt_irrefl t)

/-- The session produced by resolving `exRecord` with `touchAfter = 0` at
`now = 0`: rehydrated, auto-touched, expiry extended to `60000`. -/
def exTouchedOut : SessionState :=
  ⟨"abc", ⟨"/", true, none, none, false, some 60, some 60000⟩, [("foo", "bar")],
   false, true, false⟩

/-- Witness for C3: resolving the stored record `exRecord` (last touched at
`-10000` ms) with `touchAfter = 0` at `now = 0` fires the auto-touch and
extends the expiry to `60000`. -/
theorem autoTouch_fires_iff_witness :
    (exTouchedOut.isTouched = true ↔
      (0 : Int) - (50000 - 60 * 1000) ≥ exCfgTouch.touchAfter * 1000) ∧
    exTouchedOut.cookie.expires =
      (if (0 : Int) - (50000 - 60 * 1000) ≥ exCfgTouch.touchAfter * 1000
       then some (0 + 60 * 1000) else some 50000) ∧
    (∀ t2 : Int, exTouchedOut.cookie.expires = some t2 → 50000 < t2 →
      (0 : Int) - (50000 - 60 * 1000) ≥ exCfgTouch.touchAfter * 1000) := by
  have h := autoTouch_fires_iff exCfgTouch exStoreR exReqR 0 "g" "abc" exRecord
    50000 60 ⟨exTouchedOut, ⟨some exTouchedOut, exReqR.cookies⟩, [.getEv "abc"]⟩
    rfl rfl (by decide) rfl rfl rfl (by decide) (by rfl)
  exact h

/-- Claim C7: when a store operation invoked during resolution rejects —
`Store.get`, or `Store.touch` reached via the auto-touch policy — the
resolution itself rejects with that failure: no session is produced and (the
attachment `req.session = session` happening only after auto-touch) none is
attached to the request, with no fallback unpersisted session. -/
theorem store_failure_propagates (cfg : Config) (store : SessionStore) (req : Req)
    (now : Int) (genned : String) (v : String) (e : String)
    (hreq : req.session = none)
    (hcand : candidateSessionId cfg req = some v)
    (hv : v ≠ "") :
    (store.get v = .error e → sessionHandle cfg store req now genned = .error e) ∧
    (∀ (rec : StoredData) (t m : Int) (f : String → PersistData → Except String Unit),
      store.get v = .ok (some rec) →
      0 ≤ cfg.touchAfter →
      (normalizeCookie rec.cookie).expires = some t →
      (normalizeCookie rec.cookie).maxAge = some m →
      now - (t - m * 1000) ≥ cfg.touchAfter * 1000 →
      store.touch = some f →
      f v ⟨{ normalizeCookie rec.cookie with expires := some (now + m * 1000) },
           rec.data⟩ = .error e →
      sessionHandle cfg store req now genned = .error e) := by
  constructor
  · intro hget
    unfold sessionHandle
    rw [hreq]
    dsimp only
    rw [hcand]
    unfold fetchRecord
    dsimp only
    rw [if_neg hv, hget]
  · intro rec t m f hget hT ht hm hfire hstf hfail
    have he : (rehydratedSession v rec).cookie.expires = some t := ht
    have hma : (rehydratedSession v rec).cookie.maxAge = some m := hm
    have htS := touchedState_of_maxAge now (rehydratedSession v rec) m hma
    have herr : (Session.touch store now (rehydratedSession v rec)).error = some e := by
      refine touch_error_eval store now (rehydratedSession v rec) f e hstf ?_
      rw [htS]
      exact hfail
    have hcond := autoTouchCond_eval cfg now (rehydratedSession v rec) t m he hma hT
    have heval := sessionHandle_hit_eval cfg store req now genned v rec
      (Session.touch store now (rehydratedSession v rec)) hreq hcand hv hget rfl
    rw [heval, hcond, if_pos (decide_eq_true hfire), herr]

/-- Witness for C7: a rejecting `get` makes the concrete resolution reject
with the same failure. -/
theorem store_failure_propagates_witness :
    sessionHandle exCfg failGetStore exReqR 0 "g" = .error "boom" :=
  (store_failure_propagates exCfg failGetStore exReqR 0 "g" "abc" "boom"
    rfl rfl (by decide)).1 rfl
